import Mathlib

/-!
Verification of the cjdcoind chain-configuration registry, script builder and
block/transaction storage engine against their natural-language specification.

Go byte strings are modelled as `List Nat` (one entry per byte), Go maps as
association lists queried by membership / first match, and the package-global
registry state as an explicit `Registry` value threaded through `Register`.
-/

set_option maxRecDepth 4000

-- ===========================================================================
-- Chain-configuration registry (chaincfg package)
-- ===========================================================================

/-- Errors surfaced by the chaincfg registry (`ErrDuplicateNet`,
`ErrUnknownHDKeyID` in the source). -/
inductive RegErr where
  | ErrDuplicateNet
  | ErrUnknownHDKeyID
deriving DecidableEq, Repr

/-- A BIP-9 consensus deployment: bit number within the block version, and
the median-time start/expire bounds (`ConsensusDeployment` in the source). -/
structure ConsensusDeployment where
  bitNumber : Nat
  startTime : Nat
  expireTime : Nat
deriving DecidableEq, Repr

/-- The three deployments every network defines, indexed in the source by the
constants `DeploymentTestDummy`, `DeploymentCSV`, `DeploymentSegwit`. -/
structure DeploymentSet where
  testDummy : ConsensusDeployment
  csv : ConsensusDeployment
  segwit : ConsensusDeployment
deriving DecidableEq, Repr

/-- A 4-byte hierarchical-deterministic key magic (`[4]byte` in the source). -/
abbrev HDKeyID := Nat × Nat × Nat × Nat

/-- The fields of chaincfg `Params` that the registry reads.  Strings are byte
lists; `net` is the 32-bit network magic. -/
structure Params where
  name : String
  net : Nat
  deployments : DeploymentSet
  bech32HRPSegwit : List Nat
  pubKeyHashAddrID : Nat
  scriptHashAddrID : Nat
  hdPrivateKeyID : HDKeyID
  hdPublicKeyID : HDKeyID
deriving DecidableEq, Repr

/-- `math.MaxInt64`, the value the PKT networks use to disable a deployment. -/
def maxInt64 : Nat := 9223372036854775807

/-- Modelled from the spec: the sampled source does not include the
`wire/protocol` package that defines the six network magic constants; the spec
only requires the magics to be distinct 32-bit values, so the six built-in
networks are given the distinct placeholder magics 1..6 here.  The mock
network's magic `1<<32 - 1` is taken literally from the source test. -/
def protocolMainNet : Nat := 1

/-- Modelled from the spec: placeholder distinct magic (see protocolMainNet). -/
def protocolTestNet : Nat := 2

/-- Modelled from the spec: placeholder distinct magic (see protocolMainNet). -/
def protocolTestNet3 : Nat := 3

/-- Modelled from the spec: placeholder distinct magic (see protocolMainNet). -/
def protocolSimNet : Nat := 4

/-- Modelled from the spec: placeholder distinct magic (see protocolMainNet). -/
def protocolPktMainNet : Nat := 5

/-- Modelled from the spec: placeholder distinct magic (see protocolMainNet). -/
def protocolPktTestNet : Nat := 6

/-- `MainNetParams` (registry-relevant fields; values from the source). -/
def MainNetParams : Params where
  name := "mainnet"
  net := protocolMainNet
  deployments :=
    { testDummy := ⟨28, 1199145601, 1230767999⟩
      csv := ⟨0, 1462060800, 1493596800⟩
      segwit := ⟨1, 1479168000, 1510704000⟩ }
  bech32HRPSegwit := [98, 99]          -- "bc"
  pubKeyHashAddrID := 0x00
  scriptHashAddrID := 0x05
  hdPrivateKeyID := (0x04, 0x88, 0xad, 0xe4)
  hdPublicKeyID := (0x04, 0x88, 0xb2, 0x1e)

/-- `RegressionNetParams` (registry-relevant fields; values from the source). -/
def RegressionNetParams : Params where
  name := "regtest"
  net := protocolTestNet
  deployments :=
    { testDummy := ⟨28, 0, maxInt64⟩
      csv := ⟨0, 0, maxInt64⟩
      segwit := ⟨1, 0, maxInt64⟩ }
  bech32HRPSegwit := [98, 99, 114, 116]  -- "bcrt"
  pubKeyHashAddrID := 0x6f
  scriptHashAddrID := 0xc4
  hdPrivateKeyID := (0x04, 0x35, 0x83, 0x94)
  hdPublicKeyID := (0x04, 0x35, 0x87, 0xcf)

/-- `TestNet3Params` (registry-relevant fields; values from the source). -/
def TestNet3Params : Params where
  name := "testnet3"
  net := protocolTestNet3
  deployments :=
    { testDummy := ⟨28, 1199145601, 1230767999⟩
      csv := ⟨0, 1456790400, 1493596800⟩
      segwit := ⟨1, 1462060800, 1493596800⟩ }
  bech32HRPSegwit := [116, 98]         -- "tb"
  pubKeyHashAddrID := 0x6f
  scriptHashAddrID := 0xc4
  hdPrivateKeyID := (0x04, 0x35, 0x83, 0x94)
  hdPublicKeyID := (0x04, 0x35, 0x87, 0xcf)

/-- `PktTestNetParams`.  In the source the `DeploymentCSV` and
`DeploymentSegwit` literals set only `StartTime`/`ExpireTime`, so their
`BitNumber` fields take Go's zero value 0. -/
def PktTestNetParams : Params where
  name := "cjdcointest"
  net := protocolPktTestNet
  deployments :=
    { testDummy := ⟨28, 1199145601, 1230767999⟩
      csv := ⟨0, maxInt64, maxInt64⟩
      segwit := ⟨0, maxInt64, maxInt64⟩ }
  bech32HRPSegwit := [116, 112, 107]   -- "tpk"
  pubKeyHashAddrID := 0x6f
  scriptHashAddrID := 0xc4
  hdPrivateKeyID := (0x04, 0x35, 0x83, 0x94)
  hdPublicKeyID := (0x04, 0x35, 0x87, 0xcf)

/-- `PktMainNetParams`.  As with `PktTestNetParams`, the CSV and Segwit
deployment literals leave `BitNumber` at Go's zero value 0. -/
def PktMainNetParams : Params where
  name := "cjdcoin"
  net := protocolPktMainNet
  deployments :=
    { testDummy := ⟨28, 1199145601, 1230767999⟩
      csv := ⟨0, maxInt64, maxInt64⟩
      segwit := ⟨0, maxInt64, maxInt64⟩ }
  bech32HRPSegwit := [99, 106, 100, 99, 111, 105, 110]  -- "cjdcoin"
  pubKeyHashAddrID := 0x75
  scriptHashAddrID := 0x38
  hdPrivateKeyID := (0x6b, 0x86, 0x3b, 0xed)
  hdPublicKeyID := (0x6b, 0x85, 0xc5, 0x3f)

/-- `SimNetParams` (registry-relevant fields; values from the source). -/
def SimNetParams : Params where
  name := "simnet"
  net := protocolSimNet
  deployments :=
    { testDummy := ⟨28, 0, maxInt64⟩
      csv := ⟨0, 0, maxInt64⟩
      segwit := ⟨1, 0, maxInt64⟩ }
  bech32HRPSegwit := [115, 98]         -- "sb"
  pubKeyHashAddrID := 0x3f
  scriptHashAddrID := 0x7b
  hdPrivateKeyID := (0x04, 0x20, 0xb9, 0x00)
  hdPublicKeyID := (0x04, 0x20, 0xbd, 0x3a)

/-- The mock network of the source's TestRegister, with `Net: 1<<32 - 1` and
HRP "tc". -/
def mockNetParams : Params where
  name := "mocknet"
  net := 4294967295
  deployments :=
    { testDummy := ⟨0, 0, 0⟩, csv := ⟨0, 0, 0⟩, segwit := ⟨0, 0, 0⟩ }
  bech32HRPSegwit := [116, 99]         -- "tc"
  pubKeyHashAddrID := 0x9f
  scriptHashAddrID := 0xf9
  hdPrivateKeyID := (0x01, 0x02, 0x03, 0x04)
  hdPublicKeyID := (0x05, 0x06, 0x07, 0x08)

/-- A network whose bech32 HRP contains uppercase letters ("TC"); used as a
concrete input when probing the registry's case handling. -/
def upperHrpParams : Params where
  name := "uppernet"
  net := 99
  deployments :=
    { testDummy := ⟨0, 0, 0⟩, csv := ⟨0, 0, 0⟩, segwit := ⟨0, 0, 0⟩ }
  bech32HRPSegwit := [84, 67]          -- "TC"
  pubKeyHashAddrID := 0x11
  scriptHashAddrID := 0x22
  hdPrivateKeyID := (0x0a, 0x0b, 0x0c, 0x0d)
  hdPublicKeyID := (0x0e, 0x0f, 0x10, 0x11)

/-- The five package-level lookup tables of the chaincfg package
(`registeredNets`, `pubKeyHashAddrIDs`, `scriptHashAddrIDs`,
`bech32SegwitPrefixes`, `hdPrivToPubKeyIDs`), modelled as an explicit value. -/
structure Registry where
  registeredNets : List Nat
  pubKeyHashAddrIDs : List Nat
  scriptHashAddrIDs : List Nat
  bech32SegwitPrefixes : List (List Nat)
  hdPrivToPubKeyIDs : List (HDKeyID × List Nat)
deriving DecidableEq, Repr

/-- The registry before any registration (all maps empty). -/
def emptyRegistry : Registry := ⟨[], [], [], [], []⟩

/-- `params.HDPublicKeyID[:]`: the 4-byte array viewed as a byte slice. -/
def hd4ToList (k : HDKeyID) : List Nat := [k.1, k.2.1, k.2.2.1, k.2.2.2]

/-- chaincfg `Register`: fails with ErrDuplicateNet when the magic is known,
otherwise inserts the magic, the two address-prefix bytes, the HD priv-to-pub
magic, and the bech32 HRP with "1" (byte 49) appended.  The Go function
mutates package state and returns an error; here it returns the new state
paired with the error. -/
def Register (r : Registry) (p : Params) : Registry × Option RegErr :=
  if p.net ∈ r.registeredNets then
    (r, some RegErr.ErrDuplicateNet)
  else
    ({ registeredNets := p.net :: r.registeredNets
       pubKeyHashAddrIDs := p.pubKeyHashAddrID :: r.pubKeyHashAddrIDs
       scriptHashAddrIDs := p.scriptHashAddrID :: r.scriptHashAddrIDs
       bech32SegwitPrefixes := (p.bech32HRPSegwit ++ [49]) :: r.bech32SegwitPrefixes
       hdPrivToPubKeyIDs := (p.hdPrivateKeyID, hd4ToList p.hdPublicKeyID) :: r.hdPrivToPubKeyIDs },
     none)

/-- `mustRegister`: the init-time registration helper.  It can only be reached
on the success path (a failure would panic the process), so its state effect
is the success-state of `Register`. -/
def mustRegister (r : Registry) (p : Params) : Registry := (Register r p).1

/-- The registry after the package `init` function has registered the six
default networks, in the source's call order. -/
def initRegistry : Registry :=
  mustRegister (mustRegister (mustRegister (mustRegister (mustRegister
    (mustRegister emptyRegistry MainNetParams) TestNet3Params)
    PktTestNetParams) PktMainNetParams) RegressionNetParams) SimNetParams

/-- `IsPubKeyHashAddrID`: membership of the byte in the P2PKH table. -/
def IsPubKeyHashAddrID (r : Registry) (id : Nat) : Bool :=
  r.pubKeyHashAddrIDs.contains id

/-- `IsScriptHashAddrID`: membership of the byte in the P2SH table. -/
def IsScriptHashAddrID (r : Registry) (id : Nat) : Bool :=
  r.scriptHashAddrIDs.contains id

/-- `strings.ToLower` restricted to ASCII byte strings: bytes 65..90 ('A'..'Z')
are shifted to 97..122 ('a'..'z'), all other bytes are unchanged. -/
def goToLower (s : List Nat) : List Nat :=
  s.map (fun b => if 65 ≤ b ∧ b ≤ 90 then b + 32 else b)

/-- `strings.ToUpper` restricted to ASCII byte strings. -/
def goToUpper (s : List Nat) : List Nat :=
  s.map (fun b => if 97 ≤ b ∧ b ≤ 122 then b - 32 else b)

/-- `IsBech32SegwitPrefix` of the source: lowercases the query, then checks
membership in the stored prefix table.  (Renamed `Pfx` here.) -/
def IsBech32SegwitPfx (r : Registry) (p : List Nat) : Bool :=
  r.bech32SegwitPrefixes.contains (goToLower p)

/-- `HDPrivateKeyToPublicKeyID`: fails unless the id is exactly 4 bytes and
its 4-byte key is in the HD table; on success returns the stored public
magic bytes. -/
def HDPrivateKeyToPublicKeyID (r : Registry) (id : List Nat) :
    Except RegErr (List Nat) :=
  match id with
  | [a, b, c, d] =>
    match r.hdPrivToPubKeyIDs.lookup (a, b, c, d) with
    | some pub => Except.ok pub
    | none => Except.error RegErr.ErrUnknownHDKeyID
  | _ => Except.error RegErr.ErrUnknownHDKeyID

-- ===========================================================================
-- ScriptBuilder (txscript/scriptbuilder package)
-- ===========================================================================

/-- Modelled from the spec: `txscript/params` is not in the sampled source;
the spec gives the protocol's max-script-size as 10 000 bytes. -/
def MaxScriptSize : Nat := 10000

/-- Modelled from the spec: `txscript/params` is not in the sampled source;
the spec gives the protocol's max-element-size as 520 bytes. -/
def MaxScriptElementSize : Nat := 520

/-- Modelled from the spec: the `txscript/opcode` package is not in the
sampled source; these are the standard Bitcoin byte values of the opcode
names the spec and the builder use. -/
def OP_0 : Nat := 0

/-- Modelled from the spec: standard byte value of OP_DATA_1 (see OP_0). -/
def OP_DATA_1 : Nat := 1

/-- Modelled from the spec: standard byte value of OP_PUSHDATA1 (see OP_0). -/
def OP_PUSHDATA1 : Nat := 76

/-- Modelled from the spec: standard byte value of OP_PUSHDATA2 (see OP_0). -/
def OP_PUSHDATA2 : Nat := 77

/-- Modelled from the spec: standard byte value of OP_PUSHDATA4 (see OP_0). -/
def OP_PUSHDATA4 : Nat := 78

/-- Modelled from the spec: standard byte value of OP_1NEGATE (see OP_0). -/
def OP_1NEGATE : Nat := 79

/-- Modelled from the spec: standard byte value of OP_1 (see OP_0). -/
def OP_1 : Nat := 81

/-- The error kind a ScriptBuilder records (`ErrScriptNotCanonical`). -/
inductive BuildErr where
  | scriptNotCanonical
deriving DecidableEq, Repr

/-- `ScriptBuilder`: the growing script bytes and the sticky error
(`ScriptInt` / `ErrInt` in the source). -/
structure Builder where
  script : List Nat
  err : Option BuildErr
deriving DecidableEq, Repr

/-- `NewScriptBuilder()`: empty script, no error. -/
def NewScriptBuilder : Builder := ⟨[], none⟩

/-- `AddOp`: appends one opcode unless the builder already errored or the
script would exceed `MaxScriptSize`. -/
def AddOp (b : Builder) (op : Nat) : Builder :=
  match b.err with
  | some _ => b
  | none =>
    if b.script.length + 1 > MaxScriptSize then
      { b with err := some BuildErr.scriptNotCanonical }
    else
      { b with script := b.script ++ [op] }

/-- `AddOps`: appends a run of opcodes with the same size guard. -/
def AddOps (b : Builder) (opcodes : List Nat) : Builder :=
  match b.err with
  | some _ => b
  | none =>
    if b.script.length + opcodes.length > MaxScriptSize then
      { b with err := some BuildErr.scriptNotCanonical }
    else
      { b with script := b.script ++ opcodes }

/-- `CanonicalDataSize`: the byte count of the canonical push of `data`. -/
def CanonicalDataSize (data : List Nat) : Nat :=
  if data.length = 0 then 1
  else if data.length = 1 ∧ data.headD 0 ≤ 16 then 1
  else if data.length = 1 ∧ data.headD 0 = 0x81 then 1
  else if data.length < OP_PUSHDATA1 then 1 + data.length
  else if data.length ≤ 0xff then 2 + data.length
  else if data.length ≤ 0xffff then 3 + data.length
  else 5 + data.length

/-- The internal `addData`: emits the canonical push with no size limits.
Little-endian length bytes are written as the successive base-256 digits of
`data.length`, as `binary.LittleEndian.PutUint16/PutUint32` do. -/
def addData (b : Builder) (data : List Nat) : Builder :=
  if data.length = 0 ∨ (data.length = 1 ∧ data.headD 0 = 0) then
    { b with script := b.script ++ [OP_0] }
  else if data.length = 1 ∧ data.headD 0 ≤ 16 then
    { b with script := b.script ++ [OP_1 - 1 + data.headD 0] }
  else if data.length = 1 ∧ data.headD 0 = 0x81 then
    { b with script := b.script ++ [OP_1NEGATE] }
  else if data.length < OP_PUSHDATA1 then
    { b with script := b.script ++ [OP_DATA_1 - 1 + data.length] ++ data }
  else if data.length ≤ 0xff then
    { b with script := b.script ++ [OP_PUSHDATA1, data.length] ++ data }
  else if data.length ≤ 0xffff then
    { b with script := b.script ++
        [OP_PUSHDATA2, data.length % 256, data.length / 256 % 256] ++ data }
  else
    { b with script := b.script ++
        [OP_PUSHDATA4, data.length % 256, data.length / 256 % 256,
         data.length / 256 / 256 % 256, data.length / 256 / 256 / 256 % 256] ++ data }

/-- `AddFullData`: skips every size check (sticky error aside) and pushes via
the internal `addData`. -/
def AddFullData (b : Builder) (data : List Nat) : Builder :=
  match b.err with
  | some _ => b
  | none => addData b data

/-- `AddData`: rejects pushes that would exceed `MaxScriptSize` or whose
element exceeds `MaxScriptElementSize`, otherwise pushes canonically. -/
def AddData (b : Builder) (data : List Nat) : Builder :=
  match b.err with
  | some _ => b
  | none =>
    if b.script.length + CanonicalDataSize data > MaxScriptSize then
      { b with err := some BuildErr.scriptNotCanonical }
    else if data.length > MaxScriptElementSize then
      { b with err := some BuildErr.scriptNotCanonical }
    else
      addData b data

/-- The little-endian base-256 digits of a natural number (empty for 0). -/
def natToLE (n : Nat) : List Nat :=
  if h : n = 0 then [] else n % 256 :: natToLE (n / 256)
termination_by n
decreasing_by exact Nat.div_lt_self (Nat.pos_of_ne_zero h) (by norm_num)

/-- Modelled from the spec: the `txscript/scriptnum` package is not in the
sampled source; per the spec, `ScriptNum(v).Bytes()` is the minimal
sign-magnitude little-endian encoding (empty for 0; high bit of the last
byte is the sign, with an extra sign byte when the magnitude already uses
the high bit). -/
def scriptNumBytes (v : Int) : List Nat :=
  if v = 0 then []
  else
    let mag := natToLE v.natAbs
    if 128 ≤ mag.getLastD 0 then
      mag ++ [if v < 0 then 128 else 0]
    else if v < 0 then
      mag.dropLast ++ [mag.getLastD 0 + 128]
    else
      mag

/-- `AddInt64`: small-integer fast paths (OP_0, OP_1NEGATE, OP_1..OP_16),
otherwise a canonical data push of the script-number encoding. -/
def AddInt64 (b : Builder) (v : Int) : Builder :=
  match b.err with
  | some _ => b
  | none =>
    if b.script.length + 1 > MaxScriptSize then
      { b with err := some BuildErr.scriptNotCanonical }
    else if v = 0 then
      { b with script := b.script ++ [OP_0] }
    else if v = -1 ∨ (1 ≤ v ∧ v ≤ 16) then
      { b with script := b.script ++ [((OP_1 : Int) - 1 + v).toNat] }
    else
      AddData b (scriptNumBytes v)

/-- `Script()`: the built bytes so far together with the recorded error. -/
def Script (b : Builder) : List Nat × Option BuildErr := (b.script, b.err)

/-- The encoding the specification claims for an accepted `AddData` push,
written from the claim's words: OP_0 for empty or single zero byte,
OP_1NEGATE for single 0x81, OP_1..OP_16 for a single byte 1..16, the
direct-length opcode for lengths 1..75, OP_PUSHDATA1 up to 0xff,
OP_PUSHDATA2 with little-endian 2-byte length up to 0xffff, OP_PUSHDATA4
beyond; each followed by the data bytes. -/
def claimedPushEncoding (data : List Nat) : List Nat :=
  match data with
  | [] => [OP_0]
  | [b] =>
    if b = 0 then [OP_0]
    else if b = 0x81 then [OP_1NEGATE]
    else if 1 ≤ b ∧ b ≤ 16 then [OP_1 - 1 + b]
    else [OP_DATA_1, b]
  | _ =>
    if data.length ≤ 75 then [OP_DATA_1 - 1 + data.length] ++ data
    else if data.length ≤ 0xff then [OP_PUSHDATA1, data.length] ++ data
    else if data.length ≤ 0xffff then
      [OP_PUSHDATA2, data.length % 256, data.length / 256 % 256] ++ data
    else
      [OP_PUSHDATA4, data.length % 256, data.length / 256 % 256,
       data.length / 256 / 256 % 256, data.length / 256 / 256 / 256 % 256] ++ data

-- ===========================================================================
-- Storage engine (btcdb interface; implementation not in the sampled source)
-- ===========================================================================

/-- A block or transaction hash (32-byte digest compared by raw bytes). -/
abbrev Hash := List Nat

/-- Storage-engine error kinds from the spec's error taxonomy. -/
inductive DbErr where
  | HeightNotFound
  | TxNotFound
deriving DecidableEq, Repr

/-- One committed transaction-index entry: txid, abstract transaction
payload, containing block hash, height and spent-output bitvector. -/
structure TxEntry where
  txSha : Hash
  tx : Nat
  blkSha : Hash
  height : Int
  txSpent : List Bool
deriving DecidableEq, Repr

/-- One element of the batched lookup's reply (`TxListReply` in the test's
interface): the queried txid, the entry fields when found, and the error
code otherwise. -/
structure TxListReply where
  sha : Hash
  tx : Option Nat
  blkSha : Option Hash
  height : Int
  txSpent : Option (List Bool)
  err : Option DbErr
deriving DecidableEq, Repr

/-- Modelled from the spec: the btcdb storage implementation is not in the
sampled source (only its interface test is).  Per the spec, heights form a
contiguous range [0, tip], so the committed state is the list of block
hashes indexed by height, plus the committed transaction-index entries in
insertion order. -/
structure DbState where
  blocks : List Hash
  txIndex : List TxEntry
deriving DecidableEq, Repr

/-- The storage tip height: −1 for an empty store, else the greatest height. -/
def dbTip (s : DbState) : Int := (s.blocks.length : Int) - 1

/-- Modelled from the spec: `FetchBlockShaByHeight(h)` returns the hash at
height h and fails with HeightNotFound if h < 0 or h > tip. -/
def FetchBlockShaByHeight (s : DbState) (h : Int) : Except DbErr Hash :=
  if h < 0 ∨ dbTip s < h then Except.error DbErr.HeightNotFound
  else
    match s.blocks.get? h.toNat with
    | some sha => Except.ok sha
    | none => Except.error DbErr.HeightNotFound

/-- All committed entries for a txid, oldest first (the spec stores duplicate
txids as multiple entries in insertion order). -/
def fetchTxEntries (s : DbState) (id : Hash) : List TxEntry :=
  s.txIndex.filter (fun e => e.txSha == id)

/-- Modelled from the spec: batched `FetchTxByShaList(ids)` returns one reply
per input id in input order — the most recent entry for that txid, or the
TxNotFound error code when no committed entry has it. -/
def FetchTxByShaList (s : DbState) (ids : List Hash) : List TxListReply :=
  ids.map (fun id =>
    match (fetchTxEntries s id).getLast? with
    | some e =>
      { sha := id, tx := some e.tx, blkSha := some e.blkSha,
        height := e.height, txSpent := some e.txSpent, err := none }
    | none =>
      { sha := id, tx := none, blkSha := none,
        height := 0, txSpent := none, err := some DbErr.TxNotFound })

/-- A concrete two-block store used to instantiate storage theorems. -/
def dbS2 : DbState where
  blocks := [[10], [11]]
  txIndex := [⟨[7], 42, [11], 1, [false, false]⟩]

/-- A concrete query list for `dbS2`: one known txid, one unknown. -/
def dbIds2 : List Hash := [[7], [8]]

-- ===========================================================================
-- Helper lemmas
-- ===========================================================================

theorem goToLower_append (s t : List Nat) :
    goToLower (s ++ t) = goToLower s ++ goToLower t := by
  simp [goToLower]

theorem goToLower_idem (s : List Nat) :
    goToLower (goToLower s) = goToLower s := by
  induction s with
  | nil => rfl
  | cons b t ih =>
    simp only [goToLower, List.map_cons] at *
    refine congrArg₂ _ ?_ ih
    split_ifs <;> omega

theorem goToLower_goToUpper (s : List Nat) :
    goToLower (goToUpper s) = goToLower s := by
  induction s with
  | nil => rfl
  | cons b t ih =>
    simp only [goToLower, goToUpper, List.map_cons] at *
    refine congrArg₂ _ ?_ ih
    split_ifs <;> omega

theorem register_fst_of_err (r : Registry) (p : Params)
    (h : (Register r p).2 = some RegErr.ErrDuplicateNet) :
    (Register r p).1 = r := by
  unfold Register at h ⊢
  by_cases hq : p.net ∈ r.registeredNets
  · simp [hq]
  · simp [hq] at h

theorem register_not_mem_of_ok (r : Registry) (p : Params)
    (h : (Register r p).2 = none) : p.net ∉ r.registeredNets := by
  intro hmem
  unfold Register at h
  simp [hmem] at h

-- ===========================================================================
-- Claim theorems: ChainParams registry
-- ===========================================================================

/-- Claim C3: registering a network whose magic is already registered fails
with ErrDuplicateNet and leaves the registry untouched; all six built-in
networks are registered at init, and a second Register call with the same
magic as an earlier successful one always fails. -/
theorem register_duplicate_fails (r : Registry) (p : Params)
    (hmem : p.net ∈ r.registeredNets) :
    Register r p = (r, some RegErr.ErrDuplicateNet) ∧
    (MainNetParams.net ∈ initRegistry.registeredNets ∧
     TestNet3Params.net ∈ initRegistry.registeredNets ∧
     PktTestNetParams.net ∈ initRegistry.registeredNets ∧
     PktMainNetParams.net ∈ initRegistry.registeredNets ∧
     RegressionNetParams.net ∈ initRegistry.registeredNets ∧
     SimNetParams.net ∈ initRegistry.registeredNets) ∧
    (∀ r0 q p2, (Register r0 q).2 = none → p2.net = q.net →
      (Register (Register r0 q).1 p2).2 = some RegErr.ErrDuplicateNet) := by
  refine ⟨by simp [Register, hmem], by decide, ?_⟩
  intro r0 q p2 hok hnet
  have hq := register_not_mem_of_ok r0 q hok
  simp [Register, hq, hnet]

theorem register_duplicate_fails_witness :
    MainNetParams.net ∈ initRegistry.registeredNets ∧
    Register initRegistry MainNetParams = (initRegistry, some RegErr.ErrDuplicateNet) :=
  ⟨by decide, (register_duplicate_fails initRegistry MainNetParams (by decide)).1⟩

/-- Claim C9 counterexample: in both PKT networks the Segwit deployment's
bit number is 0 (the field is omitted in the source literal), not 1 as the
claim states for every network. -/
theorem pkt_segwit_bitnumber_cex :
    PktMainNetParams.deployments.segwit.bitNumber = 0 ∧
    PktTestNetParams.deployments.segwit.bitNumber = 0 ∧
    ¬ PktMainNetParams.deployments.segwit.bitNumber = 1 := by decide

/-- Claim C9 (amended): in all six built-in networks TestDummy has bit 28 and
CSV has bit 0; Segwit has bit 1 in mainnet, testnet3, regtest and simnet,
while in the two PKT networks the Segwit bit number is Go's zero value 0;
in the PKT networks CSV and Segwit have StartTime and ExpireTime both equal
to MaxInt64. -/
theorem deployments_bits_and_pkt_disable :
    (MainNetParams.deployments.testDummy.bitNumber = 28 ∧
     TestNet3Params.deployments.testDummy.bitNumber = 28 ∧
     RegressionNetParams.deployments.testDummy.bitNumber = 28 ∧
     SimNetParams.deployments.testDummy.bitNumber = 28 ∧
     PktMainNetParams.deployments.testDummy.bitNumber = 28 ∧
     PktTestNetParams.deployments.testDummy.bitNumber = 28) ∧
    (MainNetParams.deployments.csv.bitNumber = 0 ∧
     TestNet3Params.deployments.csv.bitNumber = 0 ∧
     RegressionNetParams.deployments.csv.bitNumber = 0 ∧
     SimNetParams.deployments.csv.bitNumber = 0 ∧
     PktMainNetParams.deployments.csv.bitNumber = 0 ∧
     PktTestNetParams.deployments.csv.bitNumber = 0) ∧
    (MainNetParams.deployments.segwit.bitNumber = 1 ∧
     TestNet3Params.deployments.segwit.bitNumber = 1 ∧
     RegressionNetParams.deployments.segwit.bitNumber = 1 ∧
     SimNetParams.deployments.segwit.bitNumber = 1) ∧
    (PktMainNetParams.deployments.segwit.bitNumber = 0 ∧
     PktTestNetParams.deployments.segwit.bitNumber = 0) ∧
    (PktMainNetParams.deployments.csv.startTime = maxInt64 ∧
     PktMainNetParams.deployments.csv.expireTime = maxInt64 ∧
     PktMainNetParams.deployments.segwit.startTime = maxInt64 ∧
     PktMainNetParams.deployments.segwit.expireTime = maxInt64 ∧
     PktTestNetParams.deployments.csv.startTime = maxInt64 ∧
     PktTestNetParams.deployments.csv.expireTime = maxInt64 ∧
     PktTestNetParams.deployments.segwit.startTime = maxInt64 ∧
     PktTestNetParams.deployments.segwit.expireTime = maxInt64) := by decide

/-- Claim C10: a Register call that fails with ErrDuplicateNet leaves all
five lookup tables unchanged: every membership and HD-key query answers the
same immediately after the failed call as before it. -/
theorem register_fail_preserves (r : Registry) (p : Params)
    (h : (Register r p).2 = some RegErr.ErrDuplicateNet) :
    (Register r p).1 = r ∧
    (∀ n, (Register r p).1.registeredNets.contains n = r.registeredNets.contains n) ∧
    (∀ b, IsPubKeyHashAddrID (Register r p).1 b = IsPubKeyHashAddrID r b) ∧
    (∀ b, IsScriptHashAddrID (Register r p).1 b = IsScriptHashAddrID r b) ∧
    (∀ s, IsBech32SegwitPfx (Register r p).1 s = IsBech32SegwitPfx r s) ∧
    (∀ id, HDPrivateKeyToPublicKeyID (Register r p).1 id =
           HDPrivateKeyToPublicKeyID r id) := by
  have hfst := register_fst_of_err r p h
  exact ⟨hfst, fun n => by rw [hfst], fun b => by rw [hfst], fun b => by rw [hfst],
         fun s => by rw [hfst], fun id => by rw [hfst]⟩

theorem register_fail_preserves_witness :
    (Register initRegistry MainNetParams).2 = some RegErr.ErrDuplicateNet ∧
    (Register initRegistry MainNetParams).1 = initRegistry :=
  ⟨by decide, (register_fail_preserves initRegistry MainNetParams (by decide)).1⟩

/-- Claim C4 counterexample: a params value whose bech32 HRP contains
uppercase letters registers successfully, yet the query on its HRP followed
by "1" answers false, because Register stores the prefix raw while the
lookup lowercases its input. -/
theorem register_bech32_uppercase_cex :
    (Register emptyRegistry upperHrpParams).2 = none ∧
    IsBech32SegwitPfx (Register emptyRegistry upperHrpParams).1
      (upperHrpParams.bech32HRPSegwit ++ [49]) = false := by decide

/-- Claim C4 (amended): for every params value whose bech32 HRP is already
lowercase (true of all built-in networks), a successful Register makes the
P2PKH byte, the P2SH byte, the HRP followed by "1", and the HD priv-to-pub
mapping all visible through the four lookup functions. -/
theorem register_success_lookups (r : Registry) (p : Params)
    (hok : (Register r p).2 = none)
    (hlow : goToLower p.bech32HRPSegwit = p.bech32HRPSegwit) :
    IsPubKeyHashAddrID (Register r p).1 p.pubKeyHashAddrID = true ∧
    IsScriptHashAddrID (Register r p).1 p.scriptHashAddrID = true ∧
    IsBech32SegwitPfx (Register r p).1 (p.bech32HRPSegwit ++ [49]) = true ∧
    HDPrivateKeyToPublicKeyID (Register r p).1 (hd4ToList p.hdPrivateKeyID) =
      Except.ok (hd4ToList p.hdPublicKeyID) := by
  have hq := register_not_mem_of_ok r p hok
  have hfst : (Register r p).1 =
      { registeredNets := p.net :: r.registeredNets
        pubKeyHashAddrIDs := p.pubKeyHashAddrID :: r.pubKeyHashAddrIDs
        scriptHashAddrIDs := p.scriptHashAddrID :: r.scriptHashAddrIDs
        bech32SegwitPrefixes := (p.bech32HRPSegwit ++ [49]) :: r.bech32SegwitPrefixes
        hdPrivToPubKeyIDs :=
          (p.hdPrivateKeyID, hd4ToList p.hdPublicKeyID) :: r.hdPrivToPubKeyIDs } := by
    simp [Register, hq]
  rw [hfst]
  refine ⟨by simp [IsPubKeyHashAddrID], by simp [IsScriptHashAddrID], ?_, ?_⟩
  · have hl : goToLower (p.bech32HRPSegwit ++ [49]) = p.bech32HRPSegwit ++ [49] := by
      rw [goToLower_append, hlow]
      rfl
    simp [IsBech32SegwitPfx, hl]
  · rcases hp : p.hdPrivateKeyID with ⟨a, b, c, d⟩
    simp [HDPrivateKeyToPublicKeyID, hd4ToList, hp, List.lookup]

theorem register_success_lookups_witness :
    (Register emptyRegistry mockNetParams).2 = none ∧
    goToLower mockNetParams.bech32HRPSegwit = mockNetParams.bech32HRPSegwit ∧
    (IsPubKeyHashAddrID (Register emptyRegistry mockNetParams).1
       mockNetParams.pubKeyHashAddrID = true ∧
     IsScriptHashAddrID (Register emptyRegistry mockNetParams).1
       mockNetParams.scriptHashAddrID = true ∧
     IsBech32SegwitPfx (Register emptyRegistry mockNetParams).1
       (mockNetParams.bech32HRPSegwit ++ [49]) = true ∧
     HDPrivateKeyToPublicKeyID (Register emptyRegistry mockNetParams).1
       (hd4ToList mockNetParams.hdPrivateKeyID) =
       Except.ok (hd4ToList mockNetParams.hdPublicKeyID)) :=
  ⟨by decide, by decide,
   register_success_lookups emptyRegistry mockNetParams (by decide) (by decide)⟩

/-- Claim C8 counterexample: after registering a network whose HRP is the
uppercase "TC", neither the uppercase spelling "TC1" nor the lowercase
spelling "tc1" is accepted, refuting the claim's "both spellings accepted"
consequence for arbitrary HRPs. -/
theorem bech32_uppercase_spellings_cex :
    (Register emptyRegistry upperHrpParams).2 = none ∧
    IsBech32SegwitPfx (Register emptyRegistry upperHrpParams).1 [84, 67, 49] = false ∧
    IsBech32SegwitPfx (Register emptyRegistry upperHrpParams).1
      (goToLower [84, 67, 49]) = false := by decide

/-- Claim C8 (amended): the bech32 prefix query is case-insensitive — it
answers the same on any byte string and on its ASCII-lowercase form; and
after registering a network whose HRP is already lowercase, both the
lowercase and the uppercase spelling of the HRP followed by "1" are
accepted. -/
theorem bech32_case_insensitive :
    (∀ r s, IsBech32SegwitPfx r s = IsBech32SegwitPfx r (goToLower s)) ∧
    (∀ r p, goToLower p.bech32HRPSegwit = p.bech32HRPSegwit →
      (Register r p).2 = none →
      IsBech32SegwitPfx (Register r p).1 (p.bech32HRPSegwit ++ [49]) = true ∧
      IsBech32SegwitPfx (Register r p).1
        (goToUpper (p.bech32HRPSegwit ++ [49])) = true) := by
  constructor
  · intro r s
    simp [IsBech32SegwitPfx, goToLower_idem]
  · intro r p hlow hok
    have hq := register_not_mem_of_ok r p hok
    have hl : goToLower (p.bech32HRPSegwit ++ [49]) = p.bech32HRPSegwit ++ [49] := by
      rw [goToLower_append, hlow]
      rfl
    constructor
    · simp [Register, hq, IsBech32SegwitPfx, hl]
    · simp [Register, hq, IsBech32SegwitPfx, goToLower_goToUpper, hl]

theorem bech32_case_insensitive_witness :
    (IsBech32SegwitPfx initRegistry [84, 67, 49] =
      IsBech32SegwitPfx initRegistry (goToLower [84, 67, 49])) ∧
    goToLower mockNetParams.bech32HRPSegwit = mockNetParams.bech32HRPSegwit ∧
    (Register emptyRegistry mockNetParams).2 = none ∧
    (IsBech32SegwitPfx (Register emptyRegistry mockNetParams).1
       (mockNetParams.bech32HRPSegwit ++ [49]) = true ∧
     IsBech32SegwitPfx (Register emptyRegistry mockNetParams).1
       (goToUpper (mockNetParams.bech32HRPSegwit ++ [49])) = true) :=
  ⟨bech32_case_insensitive.1 initRegistry [84, 67, 49], by decide, by decide,
   bech32_case_insensitive.2 emptyRegistry mockNetParams (by decide) (by decide)⟩

-- ===========================================================================
-- ScriptBuilder lemmas
-- ===========================================================================

theorem addData_spec (b : Builder) (data : List Nat) :
    addData b data = { b with script := b.script ++ claimedPushEncoding data } := by
  rcases data with _ | ⟨b0, _ | ⟨b1, rest⟩⟩
  · simp [addData, claimedPushEncoding]
  · by_cases h0 : b0 = 0
    · subst h0; simp [addData, claimedPushEncoding]
    · by_cases h129 : b0 = 129
      · subst h129; simp [addData, claimedPushEncoding, OP_PUSHDATA1]
      · by_cases h16 : b0 ≤ 16
        · have h1 : 1 ≤ b0 := by omega
          simp [addData, claimedPushEncoding, h0, h129, h16, h1, OP_PUSHDATA1]
        · simp [addData, claimedPushEncoding, h0, h129, h16, OP_PUSHDATA1, OP_DATA_1]
  · simp only [addData, claimedPushEncoding, List.length_cons, List.headD_cons,
      OP_0, OP_1, OP_1NEGATE, OP_DATA_1, OP_PUSHDATA1, OP_PUSHDATA2, OP_PUSHDATA4]
    split_ifs <;> first | rfl | omega | (simp_all; omega) | simp_all

theorem claimedPushEncoding_length (data : List Nat) :
    (claimedPushEncoding data).length = CanonicalDataSize data := by
  rcases data with _ | ⟨b0, _ | ⟨b1, rest⟩⟩
  · simp [claimedPushEncoding, CanonicalDataSize]
  · simp only [claimedPushEncoding, CanonicalDataSize, List.length_cons,
      List.length_nil, List.headD_cons, OP_0, OP_1, OP_1NEGATE, OP_DATA_1,
      OP_PUSHDATA1, OP_PUSHDATA2, OP_PUSHDATA4]
    split_ifs <;> first | rfl | omega | (simp_all; omega) | simp_all
  · simp only [claimedPushEncoding, CanonicalDataSize, List.length_cons,
      List.headD_cons, OP_0, OP_1, OP_1NEGATE, OP_DATA_1,
      OP_PUSHDATA1, OP_PUSHDATA2, OP_PUSHDATA4]
    split_ifs <;> first | rfl | omega | (simp_all; omega) | simp_all

theorem addData_length (b : Builder) (data : List Nat) :
    (addData b data).script.length = b.script.length + CanonicalDataSize data := by
  rw [addData_spec]
  simp [claimedPushEncoding_length]

theorem AddOp_le (b : Builder) (op : Nat) (hb : b.script.length ≤ MaxScriptSize) :
    (AddOp b op).script.length ≤ MaxScriptSize := by
  rcases b with ⟨s, (_ | e)⟩
  · simp at hb
    by_cases h : s.length + 1 > MaxScriptSize
    · simpa [AddOp, h] using hb
    · simp [AddOp, h]
      omega
  · simpa [AddOp] using hb

theorem AddOps_le (b : Builder) (ops : List Nat)
    (hb : b.script.length ≤ MaxScriptSize) :
    (AddOps b ops).script.length ≤ MaxScriptSize := by
  rcases b with ⟨s, (_ | e)⟩
  · simp at hb
    by_cases h : s.length + ops.length > MaxScriptSize
    · simpa [AddOps, h] using hb
    · simp [AddOps, h]
      omega
  · simpa [AddOps] using hb

theorem AddData_le (b : Builder) (data : List Nat)
    (hb : b.script.length ≤ MaxScriptSize) :
    (AddData b data).script.length ≤ MaxScriptSize := by
  rcases b with ⟨s, (_ | e)⟩
  · simp at hb
    by_cases h1 : s.length + CanonicalDataSize data > MaxScriptSize
    · simpa [AddData, h1] using hb
    · by_cases h2 : data.length > MaxScriptElementSize
      · simpa [AddData, h1, h2] using hb
      · have hlen := addData_length ⟨s, none⟩ data
        simp only [AddData]
        simp only [h1, h2, if_false, if_neg, not_false_iff]
        simp at hlen
        simp [hlen]
        omega
  · simpa [AddData] using hb

theorem AddInt64_le (b : Builder) (v : Int)
    (hb : b.script.length ≤ MaxScriptSize) :
    (AddInt64 b v).script.length ≤ MaxScriptSize := by
  rcases b with ⟨s, (_ | e)⟩
  · simp at hb
    by_cases h1 : s.length + 1 > MaxScriptSize
    · simpa [AddInt64, h1] using hb
    · by_cases h2 : v = 0
      · simp [AddInt64, h1, h2]
        omega
      · by_cases h3 : v = -1 ∨ (1 ≤ v ∧ v ≤ 16)
        · simp only [AddInt64]
          simp [h1, h2, h3]
          omega
        · simp only [AddInt64]
          simp only [h1, h2, h3, if_neg, not_false_iff, if_false]
          exact AddData_le ⟨s, none⟩ _ (by simpa using hb)
  · simpa [AddInt64] using hb

-- ===========================================================================
-- Claim theorems: ScriptBuilder
-- ===========================================================================

/-- Claim C5 counterexample: `AddFullData` skips the total-script-size check
as well as the element-size check, so a single call on a fresh builder can
push the script to 10 004 bytes with no error recorded. -/
theorem addFullData_exceeds_max_cex :
    (AddFullData NewScriptBuilder (List.replicate 10001 0)).script.length = 10004 ∧
    (AddFullData NewScriptBuilder (List.replicate 10001 0)).err = none ∧
    10004 > MaxScriptSize := by
  have h1 : AddFullData NewScriptBuilder (List.replicate 10001 0) =
      addData NewScriptBuilder (List.replicate 10001 0) := rfl
  refine ⟨?_, ?_, by decide⟩
  · rw [h1, addData_length]
    norm_num [NewScriptBuilder, CanonicalDataSize, List.length_replicate, OP_PUSHDATA1]
  · rw [h1, addData_spec]
    rfl

/-- Claim C5 (amended): for `AddOp`, `AddOps`, `AddData` and `AddInt64` the
script length never exceeds the max-script-size of 10 000 bytes, and any
single such call whose push would exceed the limit leaves the script bytes
unmodified and records ScriptNotCanonical; `AddFullData`, the test-only
escape hatch, skips both size checks and can exceed the limit. -/
theorem builder_size_invariant (b : Builder) (op : Nat) (ops data : List Nat)
    (v : Int) (hb : b.script.length ≤ MaxScriptSize) :
    (AddOp b op).script.length ≤ MaxScriptSize ∧
    (AddOps b ops).script.length ≤ MaxScriptSize ∧
    (AddData b data).script.length ≤ MaxScriptSize ∧
    (AddInt64 b v).script.length ≤ MaxScriptSize ∧
    (b.err = none → b.script.length + 1 > MaxScriptSize →
      AddOp b op = { script := b.script, err := some BuildErr.scriptNotCanonical } ∧
      AddInt64 b v = { script := b.script, err := some BuildErr.scriptNotCanonical }) ∧
    (b.err = none → b.script.length + ops.length > MaxScriptSize →
      AddOps b ops = { script := b.script, err := some BuildErr.scriptNotCanonical }) ∧
    (b.err = none → b.script.length + CanonicalDataSize data > MaxScriptSize →
      AddData b data = { script := b.script, err := some BuildErr.scriptNotCanonical }) := by
  refine ⟨AddOp_le b op hb, AddOps_le b ops hb, AddData_le b data hb,
          AddInt64_le b v hb, ?_, ?_, ?_⟩
  · rintro herr hgt
    rcases b with ⟨s, e⟩
    simp at herr
    subst herr
    simp at hgt
    exact ⟨by simp [AddOp, hgt], by simp [AddInt64, hgt]⟩
  · rintro herr hgt
    rcases b with ⟨s, e⟩
    simp at herr
    subst herr
    simp at hgt
    simp [AddOps, hgt]
  · rintro herr hgt
    rcases b with ⟨s, e⟩
    simp at herr
    subst herr
    simp at hgt
    simp [AddData, hgt]

theorem builder_size_invariant_witness :
    NewScriptBuilder.script.length ≤ MaxScriptSize ∧
    ((AddOp NewScriptBuilder 0).script.length ≤ MaxScriptSize ∧
     (AddOps NewScriptBuilder []).script.length ≤ MaxScriptSize ∧
     (AddData NewScriptBuilder []).script.length ≤ MaxScriptSize ∧
     (AddInt64 NewScriptBuilder 0).script.length ≤ MaxScriptSize ∧
     (NewScriptBuilder.err = none →
       NewScriptBuilder.script.length + 1 > MaxScriptSize →
       AddOp NewScriptBuilder 0 =
         { script := NewScriptBuilder.script, err := some BuildErr.scriptNotCanonical } ∧
       AddInt64 NewScriptBuilder 0 =
         { script := NewScriptBuilder.script, err := some BuildErr.scriptNotCanonical }) ∧
     (NewScriptBuilder.err = none →
       NewScriptBuilder.script.length + ([] : List Nat).length > MaxScriptSize →
       AddOps NewScriptBuilder [] =
         { script := NewScriptBuilder.script, err := some BuildErr.scriptNotCanonical }) ∧
     (NewScriptBuilder.err = none →
       NewScriptBuilder.script.length + CanonicalDataSize [] > MaxScriptSize →
       AddData NewScriptBuilder [] =
         { script := NewScriptBuilder.script, err := some BuildErr.scriptNotCanonical })) :=
  ⟨by decide, builder_size_invariant NewScriptBuilder 0 [] [] 0 (by decide)⟩

/-- Claim C6: on an error-free builder, an accepted `AddData` appends exactly
the shortest canonical encoding of the data: OP_0 for empty or a single zero
byte, OP_1NEGATE for a single 0x81, OP_1..OP_16 for a single byte 1..16,
the direct-length opcode for lengths 1..75, OP_PUSHDATA1 up to 0xff,
OP_PUSHDATA2 with a 2-byte little-endian length up to 0xffff, OP_PUSHDATA4
beyond, each followed by the data bytes. -/
theorem addData_canonical_encoding (b : Builder) (data : List Nat)
    (h0 : b.err = none)
    (h1 : b.script.length + CanonicalDataSize data ≤ MaxScriptSize)
    (h2 : data.length ≤ MaxScriptElementSize) :
    AddData b data = { script := b.script ++ claimedPushEncoding data, err := none } := by
  rcases b with ⟨s, e⟩
  simp at h0
  subst h0
  simp at h1 h2
  have hg1 : ¬ s.length + CanonicalDataSize data > MaxScriptSize := by omega
  have hg2 : ¬ data.length > MaxScriptElementSize := by omega
  simp only [AddData, hg1, hg2, if_neg, not_false_iff, if_false]
  rw [addData_spec]

theorem addData_canonical_encoding_witness :
    NewScriptBuilder.err = none ∧
    NewScriptBuilder.script.length + CanonicalDataSize [5] ≤ MaxScriptSize ∧
    List.length [5] ≤ MaxScriptElementSize ∧
    AddData NewScriptBuilder [5] =
      { script := NewScriptBuilder.script ++ claimedPushEncoding [5], err := none } :=
  ⟨rfl, by decide, by decide,
   addData_canonical_encoding NewScriptBuilder [5] rfl (by decide) (by decide)⟩

/-- Claim C7: once a builder has recorded an error, every mutator is a no-op
leaving both the script bytes and the error unchanged, and `Script()`
returns the first recorded error. -/
theorem builder_sticky_error (b : Builder) (e : BuildErr) (op : Nat)
    (ops data fdata : List Nat) (v : Int) (h : b.err = some e) :
    AddOp b op = b ∧ AddOps b ops = b ∧ AddData b data = b ∧
    AddFullData b fdata = b ∧ AddInt64 b v = b ∧ Script b = (b.script, some e) := by
  rcases b with ⟨s, e0⟩
  simp at h
  subst h
  exact ⟨rfl, rfl, rfl, rfl, rfl, rfl⟩

theorem builder_sticky_error_witness :
    (Builder.mk [0] (some BuildErr.scriptNotCanonical)).err =
      some BuildErr.scriptNotCanonical ∧
    (AddOp (Builder.mk [0] (some BuildErr.scriptNotCanonical)) 7 =
       Builder.mk [0] (some BuildErr.scriptNotCanonical) ∧
     AddOps (Builder.mk [0] (some BuildErr.scriptNotCanonical)) [1, 2] =
       Builder.mk [0] (some BuildErr.scriptNotCanonical) ∧
     AddData (Builder.mk [0] (some BuildErr.scriptNotCanonical)) [3] =
       Builder.mk [0] (some BuildErr.scriptNotCanonical) ∧
     AddFullData (Builder.mk [0] (some BuildErr.scriptNotCanonical)) [4] =
       Builder.mk [0] (some BuildErr.scriptNotCanonical) ∧
     AddInt64 (Builder.mk [0] (some BuildErr.scriptNotCanonical)) 9 =
       Builder.mk [0] (some BuildErr.scriptNotCanonical) ∧
     Script (Builder.mk [0] (some BuildErr.scriptNotCanonical)) =
       ((Builder.mk [0] (some BuildErr.scriptNotCanonical)).script,
        some BuildErr.scriptNotCanonical)) :=
  ⟨rfl, builder_sticky_error (Builder.mk [0] (some BuildErr.scriptNotCanonical))
     BuildErr.scriptNotCanonical 7 [1, 2] [3] [4] 9 rfl⟩

-- ===========================================================================
-- Storage-engine lemmas and claim theorems
-- ===========================================================================

theorem fetch_height_err (s : DbState) (k : Int)
    (hk : k < 0 ∨ dbTip s < k) :
    FetchBlockShaByHeight s k = Except.error DbErr.HeightNotFound := by
  unfold FetchBlockShaByHeight
  rw [if_pos hk]

theorem getLast?_mem_of_eq {α : Type} {l : List α} {e : α}
    (h : l.getLast? = some e) : e ∈ l := by
  obtain ⟨hne, heq⟩ := List.mem_getLast?_eq_getLast (by simp [h] : e ∈ l.getLast?)
  subst heq
  exact List.getLast_mem hne

/-- Claim C1: for a store whose heights span [0, tip], FetchBlockShaByHeight
returns the committed hash at every height in range and fails with
HeightNotFound for every negative height and every height above the tip; in
particular −1, tip+1 and tip+2 all fail.  (The storage implementation is
modelled from the spec; only its interface test is in the sampled source.) -/
theorem fetchBlockShaByHeight_contract (s : DbState) (h : Int) :
    (0 ≤ h → h ≤ dbTip s → ∃ sha, s.blocks[h.toNat]? = some sha ∧
      FetchBlockShaByHeight s h = Except.ok sha) ∧
    (h < 0 ∨ dbTip s < h →
      FetchBlockShaByHeight s h = Except.error DbErr.HeightNotFound) ∧
    FetchBlockShaByHeight s (-1) = Except.error DbErr.HeightNotFound ∧
    FetchBlockShaByHeight s (dbTip s + 1) = Except.error DbErr.HeightNotFound ∧
    FetchBlockShaByHeight s (dbTip s + 2) = Except.error DbErr.HeightNotFound := by
  refine ⟨?_, fetch_height_err s h,
    fetch_height_err s (-1) (Or.inl (by norm_num)),
    fetch_height_err s _ (Or.inr (by omega)),
    fetch_height_err s _ (Or.inr (by omega))⟩
  intro h0 htip
  have hcond : ¬ (h < 0 ∨ dbTip s < h) := by omega
  have hlt : h.toNat < s.blocks.length := by
    unfold dbTip at htip
    omega
  have hsome : s.blocks[h.toNat]? = some (s.blocks.get ⟨h.toNat, hlt⟩) := by
    rw [List.getElem?_eq_getElem hlt]
    rfl
  refine ⟨s.blocks.get ⟨h.toNat, hlt⟩, hsome, ?_⟩
  unfold FetchBlockShaByHeight
  rw [if_neg hcond]
  have hget : s.blocks.get? h.toNat = some (s.blocks.get ⟨h.toNat, hlt⟩) := by
    simpa using hsome
  rw [hget]

theorem fetchBlockShaByHeight_contract_witness :
    ((0 : Int) ≤ 0) ∧ ((0 : Int) ≤ dbTip dbS2) ∧
    (∃ sha, dbS2.blocks[(0 : Int).toNat]? = some sha ∧
      FetchBlockShaByHeight dbS2 0 = Except.ok sha) ∧
    FetchBlockShaByHeight dbS2 (-1) = Except.error DbErr.HeightNotFound :=
  ⟨by decide, by decide,
   (fetchBlockShaByHeight_contract dbS2 0).1 (by decide) (by decide),
   (fetchBlockShaByHeight_contract dbS2 0).2.2.1⟩

/-- Claim C2: the batched lookup returns exactly one reply per input txid, in
input order; the i-th reply carries the queried txid and either the fields
of a committed entry with that txid (transaction, containing block hash,
height, spent bitvector) or the TxNotFound error code when no committed
entry has it.  (The storage implementation is modelled from the spec; only
its interface test is in the sampled source.) -/
theorem fetchTxByShaList_contract (s : DbState) (ids : List Hash) :
    (FetchTxByShaList s ids).length = ids.length ∧
    (∀ (i : Nat) (id : Hash), ids[i]? = some id →
      ∃ r : TxListReply, (FetchTxByShaList s ids)[i]? = some r ∧ r.sha = id ∧
        (fetchTxEntries s id = [] →
          r.err = some DbErr.TxNotFound ∧ r.tx = none ∧ r.blkSha = none ∧
          r.txSpent = none) ∧
        (∀ e, (fetchTxEntries s id).getLast? = some e →
          r.err = none ∧ r.tx = some e.tx ∧ r.blkSha = some e.blkSha ∧
          r.height = e.height ∧ r.txSpent = some e.txSpent ∧
          e ∈ s.txIndex ∧ e.txSha = id)) := by
  constructor
  · simp [FetchTxByShaList]
  · intro i id hid
    have hmap : (FetchTxByShaList s ids)[i]? = some (
        match (fetchTxEntries s id).getLast? with
        | some e =>
          ({ sha := id, tx := some e.tx, blkSha := some e.blkSha,
             height := e.height, txSpent := some e.txSpent, err := none } : TxListReply)
        | none =>
          ({ sha := id, tx := none, blkSha := none,
             height := 0, txSpent := none, err := some DbErr.TxNotFound } : TxListReply)) := by
      unfold FetchTxByShaList
      rw [List.getElem?_map, hid]
      rfl
    rcases hlast : (fetchTxEntries s id).getLast? with _ | e
    · rw [hlast] at hmap
      refine ⟨_, hmap, rfl, fun _ => ⟨rfl, rfl, rfl, rfl⟩, ?_⟩
      intro e he
      cases he
    · rw [hlast] at hmap
      have hmem : e ∈ s.txIndex ∧ e.txSha = id := by
        have hin : e ∈ fetchTxEntries s id := getLast?_mem_of_eq hlast
        unfold fetchTxEntries at hin
        have hf := List.mem_filter.mp hin
        exact ⟨hf.1, by simpa using hf.2⟩
      refine ⟨_, hmap, rfl, ?_, ?_⟩
      · intro hempty
        rw [hempty] at hlast
        simp at hlast
      · intro e2 he2
        cases he2
        exact ⟨rfl, rfl, rfl, rfl, rfl, hmem.1, hmem.2⟩

theorem fetchTxByShaList_contract_witness :
    (FetchTxByShaList dbS2 dbIds2).length = dbIds2.length ∧
    dbIds2[(0 : Nat)]? = some [7] ∧
    (∃ r : TxListReply, (FetchTxByShaList dbS2 dbIds2)[(0 : Nat)]? = some r ∧ r.sha = [7] ∧
      (fetchTxEntries dbS2 [7] = [] →
        r.err = some DbErr.TxNotFound ∧ r.tx = none ∧ r.blkSha = none ∧
        r.txSpent = none) ∧
      (∀ e, (fetchTxEntries dbS2 [7]).getLast? = some e →
        r.err = none ∧ r.tx = some e.tx ∧ r.blkSha = some e.blkSha ∧
        r.height = e.height ∧ r.txSpent = some e.txSpent ∧
        e ∈ dbS2.txIndex ∧ e.txSha = [7])) :=
  ⟨(fetchTxByShaList_contract dbS2 dbIds2).1, by decide,
   (fetchTxByShaList_contract dbS2 dbIds2).2 0 [7] (by decide)⟩
